import Mathlib

/-!
Shallow embedding of the `cvideo-click-pave` operational scripts
(`scripts/drift_detection.py`, `scripts/cleanup.py`,
`scripts/create_bootstrap.py`, `scripts/validate_bootstrap.py`)
together with proofs of the testable properties stated in the
repository specification.

Python strings are modelled as Lean `String`, Python lists as `List`,
Python sets as deduplicated lists (with `List.toFinset` used to state
set-level facts), boto3 responses as plain data, and raised / caught
exceptions as `Except` values.
-/

namespace Pave

/-- Python's `needle in haystack` prefix test on character lists:
`True` when `needle` occurs at the start of `haystack`. -/
def charsStartWith : List Char → List Char → Bool
  | [], _ => true
  | _ :: _, [] => false
  | a :: as, b :: bs => a == b && charsStartWith as bs

/-- Python's substring containment operator `needle in haystack`
over character lists. -/
def charsContain (needle : List Char) : List Char → Bool
  | [] => charsStartWith needle []
  | c :: rest => charsStartWith needle (c :: rest) || charsContain needle rest

/-- Python's substring containment `needle in haystack` on strings. -/
def strContains (haystack needle : String) : Bool :=
  charsContain needle.toList haystack.toList

/-- Python's `", ".join(xs)`. -/
def joinComma (xs : List String) : String :=
  String.intercalate ", " xs

/-- One entry of a boto3 `AttachedPolicies` list as used by the scripts:
the dictionary `{"name": ..., "arn": ...}` built in
`drift_detection.py` / `cleanup.py`. -/
structure PolicyRef where
  name : String
  arn : String
  deriving DecidableEq, Repr

/-- `set(expected) - set(aws)` realised on lists: the deduplicated
elements of `xs` that do not occur in `ys`. -/
def setMinus (xs ys : List String) : List String :=
  xs.dedup.filter (fun x => !ys.contains x)

/-- `DriftDetector.compare_policies` (drift_detection.py:159-178):
collapse the AWS policy list to a set of names, diff against the
expected names, and emit one issue line per non-empty difference.
Returns `(len(issues) == 0, issues)`. -/
def compare_policies (aws_policies : List PolicyRef) (expected_policies : List String)
    (resource_name : String) : Bool × List String :=
  let aws_policy_names := aws_policies.map PolicyRef.name
  let missing := setMinus expected_policies aws_policy_names
  let extra := setMinus aws_policy_names expected_policies
  let issues :=
    (if missing.isEmpty then []
     else ["Missing policies in " ++ resource_name ++ ": " ++ joinComma missing]) ++
    (if extra.isEmpty then []
     else ["Extra policies in " ++ resource_name ++ ": " ++ joinComma extra])
  (issues.length == 0, issues)

/-- `DriftDetector.compare_inline_policies` (drift_detection.py:180-200). -/
def compare_inline_policies (aws_inline : List String) (expected_inline : List String)
    (resource_name : String) : Bool × List String :=
  let missing := setMinus expected_inline aws_inline
  let extra := setMinus aws_inline expected_inline
  let issues :=
    (if missing.isEmpty then []
     else ["Missing inline policies in " ++ resource_name ++ ": " ++ joinComma missing]) ++
    (if extra.isEmpty then []
     else ["Extra inline policies in " ++ resource_name ++ ": " ++ joinComma extra])
  (issues.length == 0, issues)

/-- The value of a `Principal.AWS` key in a trust-policy statement:
either a single ARN string or a list of ARN strings
(drift_detection.py:341-343 wraps a bare string into a list). -/
inductive AWSPrincipalValue where
  | str (s : String)
  | listOf (l : List String)
  deriving DecidableEq, Repr

/-- The `Principal` entry of a trust-policy statement as inspected by
`check_developer_role` / `check_cicd_role`: either not a dict (e.g. the
JSON string `"*"`, rejected by the `isinstance(principal, dict)` test) or
a dict with optional `AWS` and `Federated` keys. A statement without a
`Principal` key behaves as `dict none none` (`statement.get("Principal", {})`). -/
inductive Principal where
  | nonDict
  | dict (aws : Option AWSPrincipalValue) (federated : Option String)
  deriving DecidableEq, Repr

/-- One entry of a trust-policy document's `Statement` list. -/
structure TrustStatement where
  principal : Principal
  deriving DecidableEq, Repr

/-- The user data assembled by `DriftDetector.get_user_info`
(drift_detection.py:87-120) when the user exists; `get_user_info`
returning `{"exists": False}` is modelled as `none` at the call sites. -/
structure UserInfo where
  attached_policies : List PolicyRef
  inline_policies : List String
  groups : List String
  deriving DecidableEq, Repr

/-- The role data assembled by `DriftDetector.get_role_info`
(drift_detection.py:122-157) when the role exists. -/
structure RoleInfo where
  attached_policies : List PolicyRef
  inline_policies : List String
  assume_role_policy : List TrustStatement
  deriving DecidableEq, Repr

/-- The expected principal for `DeveloperRole`
(drift_detection.py:335). -/
def admin_user_arn : String := "arn:aws:iam::256140316797:user/admin-user"

/-- The expected federated principal for `CICDDeploymentRole`
(drift_detection.py:397). -/
def expected_federated : String :=
  "arn:aws:iam::256140316797:oidc-provider/token.actions.githubusercontent.com"

/-- One iteration of the `can_assume` loop in `check_developer_role`
(drift_detection.py:338-346): the statement's `Principal` is a dict with
an `AWS` key whose value (string wrapped to a list, or list) contains `arn`. -/
def statement_allows_aws (arn : String) (st : TrustStatement) : Bool :=
  match st.principal with
  | .dict (some (.str s)) _ => s == arn
  | .dict (some (.listOf l)) _ => l.contains arn
  | _ => false

/-- The `can_assume` result of the loop in `check_developer_role`
(drift_detection.py:337-346). -/
def can_assume_aws (stmts : List TrustStatement) (arn : String) : Bool :=
  stmts.any (statement_allows_aws arn)

/-- One iteration of the `can_assume` loop in `check_cicd_role`
(drift_detection.py:400-405): the statement's `Principal` is a dict whose
`Federated` key equals the expected OIDC provider ARN. -/
def statement_allows_federated (expected : String) (st : TrustStatement) : Bool :=
  match st.principal with
  | .dict _ (some f) => f == expected
  | _ => false

/-- The `can_assume` result of the loop in `check_cicd_role`
(drift_detection.py:399-405). -/
def can_assume_federated (stmts : List TrustStatement) (expected : String) : Bool :=
  stmts.any (statement_allows_federated expected)

/-- `DriftDetector.check_developer_user` (drift_detection.py:202-246),
as a function of the `get_user_info` result. -/
def check_developer_user (user_info : Option UserInfo) : Bool × List String :=
  match user_info with
  | none => (false, ["developer-user does not exist in AWS"])
  | some info =>
    let p := compare_policies info.attached_policies
      ["DeveloperExtendedPolicy", "AmazonEC2ReadOnlyAccess"]
      "developer-user attached policies"
    let q := compare_inline_policies info.inline_policies
      ["DeveloperComprehensivePolicy"] "developer-user inline policies"
    let issues := (if p.1 then [] else p.2) ++ (if q.1 then [] else q.2) ++
      (if info.groups.isEmpty then []
       else ["developer-user has unexpected groups: " ++ joinComma info.groups])
    (issues.length == 0, issues)

/-- `DriftDetector.check_admin_user` (drift_detection.py:248-290). -/
def check_admin_user (user_info : Option UserInfo) : Bool × List String :=
  match user_info with
  | none => (false, ["admin-user does not exist in AWS"])
  | some info =>
    let p := compare_policies info.attached_policies ["PaveAdminPolicy"]
      "admin-user attached policies"
    let q := compare_inline_policies info.inline_policies []
      "admin-user inline policies"
    let issues := (if p.1 then [] else p.2) ++ (if q.1 then [] else q.2) ++
      (if info.groups.isEmpty then []
       else ["admin-user has unexpected groups: " ++ joinComma info.groups])
    (issues.length == 0, issues)

/-- `DriftDetector.check_developer_role` (drift_detection.py:292-357). -/
def check_developer_role (role_info : Option RoleInfo) : Bool × List String :=
  match role_info with
  | none => (false, ["DeveloperRole does not exist in AWS"])
  | some info =>
    let p := compare_policies info.attached_policies
      ["AmazonAPIGatewayAdministrator", "AmazonEC2FullAccess",
       "CloudWatchLogsFullAccess", "AmazonSQSFullAccess",
       "AmazonDynamoDBFullAccess", "AmazonS3FullAccess",
       "AWSCloudFormationFullAccess", "AWSLambda_FullAccess"]
      "DeveloperRole attached policies"
    let q := compare_inline_policies info.inline_policies []
      "DeveloperRole inline policies"
    let can_assume := can_assume_aws info.assume_role_policy admin_user_arn
    let issues := (if p.1 then [] else p.2) ++ (if q.1 then [] else q.2) ++
      (if can_assume then [] else ["DeveloperRole cannot be assumed by admin-user"])
    (issues.length == 0, issues)

/-- `DriftDetector.check_cicd_role` (drift_detection.py:359-416). -/
def check_cicd_role (role_info : Option RoleInfo) : Bool × List String :=
  match role_info with
  | none => (false, ["CICDDeploymentRole does not exist in AWS"])
  | some info =>
    let p := compare_policies info.attached_policies
      ["CICDS3SpecificAccess", "AmazonS3FullAccess", "AWSLambda_FullAccess"]
      "CICDDeploymentRole attached policies"
    let q := compare_inline_policies info.inline_policies []
      "CICDDeploymentRole inline policies"
    let can_assume := can_assume_federated info.assume_role_policy expected_federated
    let issues := (if p.1 then [] else p.2) ++ (if q.1 then [] else q.2) ++
      (if can_assume then []
       else ["CICDDeploymentRole cannot be assumed by GitHub Actions OIDC"])
    (issues.length == 0, issues)

/-- `DriftDetector.run_full_drift_detection` (drift_detection.py:418-460),
as a function of the four fetched AWS states: `all_checks_passed`
together with the accumulated `all_issues`. -/
def run_full_drift_detection (du au : Option UserInfo) (dr cr : Option RoleInfo) :
    Bool × List String :=
  let c1 := check_developer_user du
  let c2 := check_admin_user au
  let c3 := check_developer_role dr
  let c4 := check_cicd_role cr
  (c1.1 && c2.1 && c3.1 && c4.1, c1.2 ++ c2.2 ++ c3.2 ++ c4.2)

/-- `drift_detection.main` (drift_detection.py:463-471): the process
exit status as a function of the fetched AWS states. -/
def drift_main_exit (du au : Option UserInfo) (dr cr : Option RoleInfo) : Nat :=
  if (run_full_drift_detection du au dr cr).1 then 0 else 1

/-- `cleanup.find_pave_users` (cleanup.py:66-97): walk the listed user
names, skip the protected bootstrap user, and keep exact matches
`admin-user` / `developer-user` and names containing `admin-user-` or
`developer-user-`. -/
def find_pave_users : List String → List String
  | [] => []
  | username :: rest =>
    if username == "pave-bootstrap-user" then find_pave_users rest
    else if username == "admin-user" || username == "developer-user" ||
        strContains username "admin-user-" || strContains username "developer-user-" then
      username :: find_pave_users rest
    else find_pave_users rest

/-- `cleanup.find_pave_roles` (cleanup.py:100-131). -/
def find_pave_roles : List String → List String
  | [] => []
  | role_name :: rest =>
    if role_name == "PaveBootstrapRole" then find_pave_roles rest
    else if role_name == "CICDDeploymentRole" || role_name == "DeveloperRole" ||
        strContains role_name "CICDDeploymentRole-" ||
        strContains role_name "DeveloperRole-" then
      role_name :: find_pave_roles rest
    else find_pave_roles rest

/-- `cleanup.find_pave_policies` (cleanup.py:134-164). -/
def find_pave_policies : List PolicyRef → List PolicyRef
  | [] => []
  | policy :: rest =>
    if policy.name == "PaveBootstrapPolicy" then find_pave_policies rest
    else if policy.name == "CICDS3SpecificAccess" || policy.name == "PaveAdminPolicy" ||
        strContains policy.name "CICDS3SpecificAccess-" then
      policy :: find_pave_policies rest
    else find_pave_policies rest

/-- `cleanup.find_pave_buckets` (cleanup.py:167-194): skip falsy (empty)
names, keep the exact state-bucket name and names containing
`pave-tf-state-bucket-`; no bootstrap-protection exclusion is applied. -/
def find_pave_buckets : List String → List String
  | [] => []
  | bucket_name :: rest =>
    if bucket_name == "" then find_pave_buckets rest
    else if bucket_name == "pave-tf-state-bucket-us-east-1" ||
        strContains bucket_name "pave-tf-state-bucket-" then
      bucket_name :: find_pave_buckets rest
    else find_pave_buckets rest

/-- The Terraform backend bucket name created by
`create_bootstrap.create_s3_backend_bucket` (create_bootstrap.py:259). -/
def backend_bucket_name : String := "pave-tf-state-bucket-us-east-1"

/-- The IAM-visible account state touched by `create_bootstrap.py`:
the account id and the names of existing users, managed policies and
roles. ARNs are the AWS-determined functions of account id and name. -/
structure AWSState where
  accountId : String
  users : List String
  policies : List String
  roles : List String
  deriving DecidableEq, Repr

/-- The ARN AWS assigns to an IAM user. -/
def user_arn (accountId name : String) : String :=
  "arn:aws:iam::" ++ accountId ++ ":user/" ++ name

/-- The ARN AWS assigns to a customer-managed policy; also the string
`create_bootstrap_policy` rebuilds in its already-exists branch
(create_bootstrap.py:121). -/
def policy_arn (accountId name : String) : String :=
  "arn:aws:iam::" ++ accountId ++ ":policy/" ++ name

/-- The ARN AWS assigns to an IAM role. -/
def role_arn (accountId name : String) : String :=
  "arn:aws:iam::" ++ accountId ++ ":role/" ++ name

/-- boto3 `iam.create_user`: raises `EntityAlreadyExists` when the user
is already present, otherwise records it and returns its ARN. -/
def iam_create_user (s : AWSState) (name : String) : Except String (AWSState × String) :=
  if name ∈ s.users then .error "EntityAlreadyExists"
  else .ok ({ s with users := name :: s.users }, user_arn s.accountId name)

/-- boto3 `iam.create_policy`. -/
def iam_create_policy (s : AWSState) (name : String) : Except String (AWSState × String) :=
  if name ∈ s.policies then .error "EntityAlreadyExists"
  else .ok ({ s with policies := name :: s.policies }, policy_arn s.accountId name)

/-- boto3 `iam.create_role`. -/
def iam_create_role (s : AWSState) (name : String) : Except String (AWSState × String) :=
  if name ∈ s.roles then .error "EntityAlreadyExists"
  else .ok ({ s with roles := name :: s.roles }, role_arn s.accountId name)

/-- `create_bootstrap.create_bootstrap_user` (create_bootstrap.py:195-220):
create `bootstrap-user`; on `EntityAlreadyExists` look the existing user
up with `iam.get_user` and return its ARN; `none` models the
error-and-`return None` branch for any other `ClientError`. -/
def create_bootstrap_user (s : AWSState) : AWSState × Option String :=
  match iam_create_user s "bootstrap-user" with
  | .ok (s', arn) => (s', some arn)
  | .error e =>
    if e == "EntityAlreadyExists" then
      (s, some (user_arn s.accountId "bootstrap-user"))
    else (s, none)

/-- `create_bootstrap.create_bootstrap_policy` (create_bootstrap.py:102-126):
on `EntityAlreadyExists` the ARN is reconstructed from the caller
identity's account id. -/
def create_bootstrap_policy (s : AWSState) : AWSState × Option String :=
  match iam_create_policy s "PaveBootstrapPolicy" with
  | .ok (s', arn) => (s', some arn)
  | .error e =>
    if e == "EntityAlreadyExists" then
      (s, some (policy_arn s.accountId "PaveBootstrapPolicy"))
    else (s, none)

/-- `create_bootstrap.create_bootstrap_role` (create_bootstrap.py:145-168):
the trust policy embeds the bootstrap user's ARN; on
`EntityAlreadyExists` the existing role is fetched with `iam.get_role`. -/
def create_bootstrap_role (s : AWSState) (_bootstrap_user_arn : String) :
    AWSState × Option String :=
  match iam_create_role s "PaveBootstrapRole" with
  | .ok (s', arn) => (s', some arn)
  | .error e =>
    if e == "EntityAlreadyExists" then
      (s, some (role_arn s.accountId "PaveBootstrapRole"))
    else (s, none)

/-- The bootstrap-creation workflow over the IAM resources: user, then
policy, then role (each later step consumes the earlier ARN; `main`
aborts via `sys.exit(1)` when a step yields no ARN). -/
def create_bootstrap_workflow (s : AWSState) :
    AWSState × (Option String × Option String × Option String) :=
  let step1 := create_bootstrap_user s
  match step1.2 with
  | none => (step1.1, (none, none, none))
  | some ua =>
    let step2 := create_bootstrap_policy step1.1
    match step2.2 with
    | none => (step2.1, (some ua, none, none))
    | some pa =>
      let step3 := create_bootstrap_role step2.1 ua
      (step3.1, (some ua, some pa, step3.2))

/-- The keyword list of `retry_with_backoff`'s retryability test
(validate_bootstrap.py:40-48). -/
def RETRY_KEYWORDS : List String :=
  ["invalidclienttokenid", "invalid", "token", "accessdenied",
   "unauthorized", "credentials"]

/-- Python's `str.lower()` as used on boto3 error strings (ASCII
lowercasing, character by character). -/
def pyLower (s : String) : String :=
  ⟨s.data.map Char.toLower⟩

/-- The retryability predicate of `retry_with_backoff`
(validate_bootstrap.py:38-49): a case-insensitive substring match of the
keywords against the stringified exception
(`any(keyword in str(e).lower() for keyword in [...])`). -/
def is_credential_error (msg : String) : Bool :=
  RETRY_KEYWORDS.any (fun keyword => strContains (pyLower msg) keyword)

/-- `validate_bootstrap.retry_with_backoff`'s default `max_attempts`. -/
def DEFAULT_MAX_ATTEMPTS : Nat := 6

/-- `validate_bootstrap.retry_with_backoff`'s default `initial_delay`
(the float `1.0`, modelled exactly as a rational). -/
def DEFAULT_INITIAL_DELAY : ℚ := 1

/-- The loop body of `retry_with_backoff` (validate_bootstrap.py:29-58):
`func` gives each attempt's outcome; `remaining` counts the attempts left
(`max_attempts - attempt`). On the last attempt an error is re-raised; a
retryable error sleeps `initial_delay * 2 ** attempt` and retries; any
other error is re-raised at once. Returns the result and the slept delays. -/
def retry_loop (func : Nat → Except String α) (initial_delay : ℚ) :
    Nat → Nat → Except String α × List ℚ
  | _, 0 => (.error "Failed after max attempts", [])
  | attempt, remaining + 1 =>
    match func attempt with
    | .ok a => (.ok a, [])
    | .error e =>
      if remaining == 0 then (.error e, [])
      else if is_credential_error e then
        let delay := initial_delay * 2 ^ attempt
        let r := retry_loop func initial_delay (attempt + 1) remaining
        (r.1, delay :: r.2)
      else (.error e, [])

/-- `validate_bootstrap.retry_with_backoff` (validate_bootstrap.py:22-61). -/
def retry_with_backoff (func : Nat → Except String α) (max_attempts : Nat)
    (initial_delay : ℚ) : Except String α × List ℚ :=
  retry_loop func initial_delay 0 max_attempts

/-- `validate_bootstrap.main` (validate_bootstrap.py:203-242): the exit
status as a function of the collected validation results
(`sys.exit(0)` iff `all(results)`). -/
def validate_main_exit (results : List Bool) : Nat :=
  if results.all id then 0 else 1

/-- `cleanup.cleanup_users` (cleanup.py:303-330) restricted to its
observable outcome per user: a success line, or a warning line when the
`delete_user` call raises — the exception is swallowed and the loop
continues. `delete_user` gives each AWS deletion's outcome. -/
def cleanup_users_report (delete_user : String → Except String Unit)
    (users : List String) : List String :=
  users.map fun username =>
    match delete_user username with
    | .ok _ => "Deleted user: " ++ username
    | .error e => "Error deleting user " ++ username ++ ": " ++ e

/-- `cleanup.cleanup_roles` (cleanup.py:333-357), same shape. -/
def cleanup_roles_report (delete_role : String → Except String Unit)
    (roles : List String) : List String :=
  roles.map fun role_name =>
    match delete_role role_name with
    | .ok _ => "Deleted role: " ++ role_name
    | .error e => "Error deleting role " ++ role_name ++ ": " ++ e

/-- `cleanup.cleanup_policies` (cleanup.py:360-383): deletion goes by ARN,
reporting by name. -/
def cleanup_policies_report (delete_policy : String → Except String Unit)
    (policies : List PolicyRef) : List String :=
  policies.map fun policy =>
    match delete_policy policy.arn with
    | .ok _ => "Deleted policy: " ++ policy.name
    | .error e => "Error deleting policy " ++ policy.name ++ ": " ++ e

/-- `cleanup.cleanup_buckets` (cleanup.py:386-410). -/
def cleanup_buckets_report (delete_bucket : String → Except String Unit)
    (buckets : List String) : List String :=
  buckets.map fun bucket_name =>
    match delete_bucket bucket_name with
    | .ok _ => "Deleted bucket: " ++ bucket_name
    | .error e => "Error deleting bucket " ++ bucket_name ++ ": " ++ e

/-- `cleanup.main` (cleanup.py:443-513): exit status and the deletion
status lines. Without `--skip-confirm` a non-`y` answer exits 0; missing
credentials exit 1 (`get_boto3_client`); afterwards every deletion error
is only reported and the script falls off the end of `main`, exiting 0. -/
def cleanup_main (skip_confirm confirmed creds_ok : Bool)
    (aws_users aws_roles : List String) (aws_policies : List PolicyRef)
    (aws_buckets : List String)
    (delete_user delete_role delete_policy delete_bucket :
      String → Except String Unit) : Nat × List String :=
  if !skip_confirm && !confirmed then (0, ["Cleanup cancelled"])
  else if !creds_ok then (1, ["AWS credentials not configured"])
  else
    let users := find_pave_users aws_users
    let roles := find_pave_roles aws_roles
    let policies := find_pave_policies aws_policies
    let buckets := find_pave_buckets aws_buckets
    if users.isEmpty && roles.isEmpty && policies.isEmpty && buckets.isEmpty then
      (0, ["No pave resources found to clean up"])
    else
      (0, cleanup_users_report delete_user users ++
          cleanup_roles_report delete_role roles ++
          cleanup_policies_report delete_policy policies ++
          cleanup_buckets_report delete_bucket buckets)

lemma setMinus_eq_nil_iff (xs ys : List String) :
    setMinus xs ys = [] ↔ xs.toFinset ⊆ ys.toFinset := by
  unfold setMinus
  rw [List.filter_eq_nil_iff]
  constructor
  · intro h a ha
    simp only [List.mem_toFinset] at ha ⊢
    have := h a (by simpa [List.mem_dedup] using ha)
    simpa using this
  · intro h a ha
    have : a ∈ xs := by simpa [List.mem_dedup] using ha
    have := h (by simpa using this : a ∈ xs.toFinset)
    simpa using this

lemma setMinus_toFinset (xs ys : List String) :
    (setMinus xs ys).toFinset = xs.toFinset \ ys.toFinset := by
  unfold setMinus
  ext a
  simp [List.mem_toFinset, List.mem_filter, List.mem_dedup]

lemma compare_policies_fst_iff (aws : List PolicyRef) (expected : List String)
    (rn : String) :
    (compare_policies aws expected rn).1 = true ↔
      (aws.map PolicyRef.name).toFinset = expected.toFinset := by
  unfold compare_policies
  simp only [beq_iff_eq, List.length_eq_zero, List.append_eq_nil]
  constructor
  · intro h
    obtain ⟨h1, h2⟩ := h
    have hm : setMinus expected (aws.map PolicyRef.name) = [] := by
      by_contra hc
      simp [List.isEmpty_iff, hc] at h1
    have he : setMinus (aws.map PolicyRef.name) expected = [] := by
      by_contra hc
      simp [List.isEmpty_iff, hc] at h2
    have hsub1 := (setMinus_eq_nil_iff _ _).mp hm
    have hsub2 := (setMinus_eq_nil_iff _ _).mp he
    exact Finset.Subset.antisymm hsub2 hsub1
  · intro h
    have hm : setMinus expected (aws.map PolicyRef.name) = [] :=
      (setMinus_eq_nil_iff _ _).mpr (by rw [h])
    have he : setMinus (aws.map PolicyRef.name) expected = [] :=
      (setMinus_eq_nil_iff _ _).mpr (by rw [h])
    simp [hm, he, List.isEmpty_iff]

lemma compare_inline_policies_fst_iff (aws : List String) (expected : List String)
    (rn : String) :
    (compare_inline_policies aws expected rn).1 = true ↔
      aws.toFinset = expected.toFinset := by
  unfold compare_inline_policies
  simp only [beq_iff_eq, List.length_eq_zero, List.append_eq_nil]
  constructor
  · intro h
    obtain ⟨h1, h2⟩ := h
    have hm : setMinus expected aws = [] := by
      by_contra hc
      simp [List.isEmpty_iff, hc] at h1
    have he : setMinus aws expected = [] := by
      by_contra hc
      simp [List.isEmpty_iff, hc] at h2
    exact Finset.Subset.antisymm ((setMinus_eq_nil_iff _ _).mp he)
      ((setMinus_eq_nil_iff _ _).mp hm)
  · intro h
    have hm : setMinus expected aws = [] :=
      (setMinus_eq_nil_iff _ _).mpr (by rw [h])
    have he : setMinus aws expected = [] :=
      (setMinus_eq_nil_iff _ _).mpr (by rw [h])
    simp [hm, he, List.isEmpty_iff]

lemma find_pave_users_eq_filter (users : List String) :
    find_pave_users users = users.filter (fun u =>
      !(u == "pave-bootstrap-user") &&
        (u == "admin-user" || u == "developer-user" ||
         strContains u "admin-user-" || strContains u "developer-user-")) := by
  induction users with
  | nil => rfl
  | cons v rest ih =>
    simp only [find_pave_users, List.filter_cons]
    by_cases h1 : v = "pave-bootstrap-user"
    · simp [h1, ih]
    · by_cases h2 : (v == "admin-user" || v == "developer-user" ||
        strContains v "admin-user-" || strContains v "developer-user-") = true
      · simp [h1, h2, ih]
      · simp [h1, h2, ih]

lemma find_pave_roles_eq_filter (roles : List String) :
    find_pave_roles roles = roles.filter (fun r =>
      !(r == "PaveBootstrapRole") &&
        (r == "CICDDeploymentRole" || r == "DeveloperRole" ||
         strContains r "CICDDeploymentRole-" || strContains r "DeveloperRole-")) := by
  induction roles with
  | nil => rfl
  | cons v rest ih =>
    simp only [find_pave_roles, List.filter_cons]
    by_cases h1 : v = "PaveBootstrapRole"
    · simp [h1, ih]
    · by_cases h2 : (v == "CICDDeploymentRole" || v == "DeveloperRole" ||
        strContains v "CICDDeploymentRole-" || strContains v "DeveloperRole-") = true
      · simp [h1, h2, ih]
      · simp [h1, h2, ih]

lemma find_pave_policies_eq_filter (policies : List PolicyRef) :
    find_pave_policies policies = policies.filter (fun p =>
      !(p.name == "PaveBootstrapPolicy") &&
        (p.name == "CICDS3SpecificAccess" || p.name == "PaveAdminPolicy" ||
         strContains p.name "CICDS3SpecificAccess-")) := by
  induction policies with
  | nil => rfl
  | cons v rest ih =>
    simp only [find_pave_policies, List.filter_cons]
    by_cases h1 : v.name = "PaveBootstrapPolicy"
    · simp [h1, ih]
    · by_cases h2 : (v.name == "CICDS3SpecificAccess" || v.name == "PaveAdminPolicy" ||
        strContains v.name "CICDS3SpecificAccess-") = true
      · simp [h1, h2, ih]
      · simp [h1, h2, ih]

lemma find_pave_buckets_eq_filter (buckets : List String) :
    find_pave_buckets buckets = buckets.filter (fun b =>
      !(b == "") &&
        (b == "pave-tf-state-bucket-us-east-1" ||
         strContains b "pave-tf-state-bucket-")) := by
  induction buckets with
  | nil => rfl
  | cons v rest ih =>
    simp only [find_pave_buckets, List.filter_cons]
    by_cases h1 : v = ""
    · simp [h1, ih]
    · by_cases h2 : (v == "pave-tf-state-bucket-us-east-1" ||
        strContains v "pave-tf-state-bucket-") = true
      · simp [h1, h2, ih]
      · simp [h1, h2, ih]

lemma retry_first_ok {α : Type} (op : Nat → Except String α) (d : ℚ) (a : α)
    (h : op 0 = .ok a) : retry_with_backoff op 6 d = (.ok a, []) := by
  simp [retry_with_backoff, retry_loop, h]

lemma retry_first_error_not_retryable {α : Type} (op : Nat → Except String α)
    (d : ℚ) (e : String) (h0 : op 0 = .error e)
    (h : is_credential_error e = false) :
    retry_with_backoff op 6 d = (.error e, []) := by
  simp [retry_with_backoff, retry_loop, h0, h]

lemma retry_all_errors_retryable {α : Type} (op : Nat → Except String α)
    (d : ℚ) (es : Nat → String) (hop : ∀ i, op i = .error (es i))
    (hret : ∀ i, is_credential_error (es i) = true) :
    retry_with_backoff op 6 d =
      (.error (es 5), [d * 2 ^ 0, d * 2 ^ 1, d * 2 ^ 2, d * 2 ^ 3, d * 2 ^ 4]) := by
  simp [retry_with_backoff, retry_loop, hop 0, hop 1, hop 2, hop 3, hop 4, hop 5,
    hret 0, hret 1, hret 2, hret 3, hret 4]

lemma check_developer_user_fst_iff (ui : Option UserInfo) :
    (check_developer_user ui).1 = true ↔ (check_developer_user ui).2 = [] := by
  cases ui <;> simp [check_developer_user, List.length_eq_zero]

lemma check_admin_user_fst_iff (ui : Option UserInfo) :
    (check_admin_user ui).1 = true ↔ (check_admin_user ui).2 = [] := by
  cases ui <;> simp [check_admin_user, List.length_eq_zero]

lemma check_developer_role_fst_iff (ri : Option RoleInfo) :
    (check_developer_role ri).1 = true ↔ (check_developer_role ri).2 = [] := by
  cases ri <;> simp [check_developer_role, List.length_eq_zero]

lemma check_cicd_role_fst_iff (ri : Option RoleInfo) :
    (check_cicd_role ri).1 = true ↔ (check_cicd_role ri).2 = [] := by
  cases ri <;> simp [check_cicd_role, List.length_eq_zero]

lemma run_full_pass_iff (du au : Option UserInfo) (dr cr : Option RoleInfo) :
    (run_full_drift_detection du au dr cr).1 = true ↔
      (run_full_drift_detection du au dr cr).2 = [] := by
  unfold run_full_drift_detection
  simp only [Bool.and_eq_true, List.append_eq_nil]
  rw [check_developer_user_fst_iff, check_admin_user_fst_iff,
    check_developer_role_fst_iff, check_cicd_role_fst_iff]

lemma compare_policies_issue_count (aws : List PolicyRef) (expected : List String)
    (rn : String) :
    (compare_policies aws expected rn).2.length =
      (if setMinus expected (aws.map PolicyRef.name) = [] then 0 else 1) +
      (if setMinus (aws.map PolicyRef.name) expected = [] then 0 else 1) := by
  unfold compare_policies
  by_cases hm : setMinus expected (aws.map PolicyRef.name) = [] <;>
    by_cases he : setMinus (aws.map PolicyRef.name) expected = [] <;>
      simp [hm, he, List.isEmpty_iff]

lemma statement_allows_aws_iff (arn : String) (st : Pave.TrustStatement) :
    Pave.statement_allows_aws arn st = true ↔
      (∃ fed, st.principal = .dict (some (.str arn)) fed) ∨
      (∃ fed l, st.principal = .dict (some (.listOf l)) fed ∧ arn ∈ l) := by
  obtain ⟨p⟩ := st
  cases p with
  | nonDict => simp [Pave.statement_allows_aws]
  | dict aws fed =>
    cases aws with
    | none => simp [Pave.statement_allows_aws]
    | some v =>
      cases v with
      | str s =>
        simp [Pave.statement_allows_aws]
      | listOf l =>
        simp only [Pave.statement_allows_aws, List.elem_iff]
        constructor
        · intro h
          exact Or.inr ⟨fed, l, rfl, h⟩
        · rintro (⟨f, h⟩ | ⟨f, l', h, hm⟩) <;> simp_all

/-- C1: the drift comparator computes `missing = expected \ observed` and
`extra = observed \ expected` as unordered sets with duplicates collapsed,
reports one issue string per non-empty category, and passes iff the two
collections are equal as sets; for observed `{A, B}` vs expected `{B, C}`
it fails with exactly `missing = {C}` and `extra = {A}`, and it passes on
any permutation of equal sets. -/
theorem compare_policies_set_semantics :
    (∀ (aws : List Pave.PolicyRef) (expected : List String) (rn : String),
        (Pave.setMinus expected (aws.map Pave.PolicyRef.name)).toFinset =
            expected.toFinset \ (aws.map Pave.PolicyRef.name).toFinset ∧
        (Pave.setMinus (aws.map Pave.PolicyRef.name) expected).toFinset =
            (aws.map Pave.PolicyRef.name).toFinset \ expected.toFinset ∧
        (Pave.compare_policies aws expected rn).2.length =
          (if Pave.setMinus expected (aws.map Pave.PolicyRef.name) = [] then 0 else 1) +
          (if Pave.setMinus (aws.map Pave.PolicyRef.name) expected = [] then 0 else 1) ∧
        ((Pave.compare_policies aws expected rn).1 = true ↔
          (aws.map Pave.PolicyRef.name).toFinset = expected.toFinset)) ∧
    (∀ (aws expected : List String) (rn : String),
        (Pave.compare_inline_policies aws expected rn).1 = true ↔
          aws.toFinset = expected.toFinset) ∧
    Pave.compare_policies [⟨"A", "arnA"⟩, ⟨"B", "arnB"⟩] ["B", "C"] "r" =
      (false, ["Missing policies in r: C", "Extra policies in r: A"]) ∧
    (∀ (aws : List Pave.PolicyRef) (expected : List String) (rn : String),
        (aws.map Pave.PolicyRef.name).Perm expected →
          (Pave.compare_policies aws expected rn).1 = true) := by
  refine ⟨fun aws expected rn => ⟨?_, ?_, ?_, ?_⟩, ?_, ?_, ?_⟩
  · exact Pave.setMinus_toFinset _ _
  · exact Pave.setMinus_toFinset _ _
  · exact Pave.compare_policies_issue_count aws expected rn
  · exact Pave.compare_policies_fst_iff aws expected rn
  · exact fun aws expected rn => Pave.compare_inline_policies_fst_iff aws expected rn
  · decide
  · intro aws expected rn hperm
    exact (Pave.compare_policies_fst_iff aws expected rn).mpr
      (Finset.ext fun a => by simp [List.mem_toFinset, hperm.mem_iff])

/-- Witness for C1: the permutation clause applied to observed
`[B, A]` against expected `[A, B]`. -/
theorem compare_policies_set_semantics_witness :
    (Pave.compare_policies [⟨"B", "arnB"⟩, ⟨"A", "arnA"⟩] ["A", "B"] "r").1 = true :=
  compare_policies_set_semantics.2.2.2
    [⟨"B", "arnB"⟩, ⟨"A", "arnA"⟩] ["A", "B"] "r" (by decide)

/-- C2: the `Principal.AWS` role-assumability check passes exactly when some
trust-policy statement's `Principal.AWS` field contains the expected
principal ARN (as a single string or as a list element); when no statement
contains the ARN the role check fails and reports a "cannot be assumed"
issue, regardless of other statements present. -/
theorem role_assumability_check :
    (∀ (stmts : List Pave.TrustStatement) (arn : String),
        Pave.can_assume_aws stmts arn = true ↔
          ∃ st ∈ stmts,
            (∃ fed, st.principal = .dict (some (.str arn)) fed) ∨
            (∃ fed l, st.principal = .dict (some (.listOf l)) fed ∧ arn ∈ l)) ∧
    (∀ info : Pave.RoleInfo,
        Pave.can_assume_aws info.assume_role_policy Pave.admin_user_arn = false →
          (Pave.check_developer_role (some info)).1 = false ∧
          "DeveloperRole cannot be assumed by admin-user" ∈
            (Pave.check_developer_role (some info)).2) ∧
    (∀ info : Pave.RoleInfo,
        (Pave.compare_policies info.attached_policies
          ["AmazonAPIGatewayAdministrator", "AmazonEC2FullAccess",
           "CloudWatchLogsFullAccess", "AmazonSQSFullAccess",
           "AmazonDynamoDBFullAccess", "AmazonS3FullAccess",
           "AWSCloudFormationFullAccess", "AWSLambda_FullAccess"]
          "DeveloperRole attached policies").1 = true →
        (Pave.compare_inline_policies info.inline_policies []
          "DeveloperRole inline policies").1 = true →
        Pave.can_assume_aws info.assume_role_policy Pave.admin_user_arn = true →
          (Pave.check_developer_role (some info)).1 = true) := by
  refine ⟨?_, ?_, ?_⟩
  · intro stmts arn
    unfold Pave.can_assume_aws
    rw [List.any_eq_true]
    constructor
    · rintro ⟨st, hmem, hallow⟩
      exact ⟨st, hmem, (statement_allows_aws_iff arn st).mp hallow⟩
    · rintro ⟨st, hmem, h⟩
      exact ⟨st, hmem, (statement_allows_aws_iff arn st).mpr h⟩
  · intro info hcan
    constructor
    · simp only [Pave.check_developer_role, hcan]
      rw [beq_eq_false_iff_ne]
      simp [List.length_append]
    · simp [Pave.check_developer_role, hcan]
  · intro info h1 h2 h3
    simp [Pave.check_developer_role, h1, h2, h3]

/-- Witness for C2: a role whose trust policy has only an unrelated
statement fails the developer-role check with the "cannot be assumed" issue. -/
theorem role_assumability_check_witness :
    (Pave.check_developer_role (some ⟨[], [], [⟨.nonDict⟩]⟩)).1 = false ∧
    "DeveloperRole cannot be assumed by admin-user" ∈
      (Pave.check_developer_role (some ⟨[], [], [⟨.nonDict⟩]⟩)).2 :=
  role_assumability_check.2.1 ⟨[], [], [⟨.nonDict⟩]⟩ (by decide)

/-- C8: when the inspected IAM entity does not exist in AWS
(`get_user_info` / `get_role_info` reports `exists = False`, modelled as
`none`), each drift check returns failure with exactly the single issue
`"<name> does not exist in AWS"` and performs no policy, group, or
trust-policy comparison — the result is the constant below, independent of
any AWS policy data. -/
theorem nonexistent_entity_short_circuits :
    Pave.check_developer_user none = (false, ["developer-user does not exist in AWS"]) ∧
    Pave.check_admin_user none = (false, ["admin-user does not exist in AWS"]) ∧
    Pave.check_developer_role none = (false, ["DeveloperRole does not exist in AWS"]) ∧
    Pave.check_cicd_role none = (false, ["CICDDeploymentRole does not exist in AWS"]) :=
  ⟨rfl, rfl, rfl, rfl⟩

/-- C3: the cleanup discovery functions never list the protected bootstrap
resources `pave-bootstrap-user`, `PaveBootstrapRole`, `PaveBootstrapPolicy`
as deletion candidates, whatever AWS returns. -/
theorem bootstrap_resources_protected :
    (∀ users : List String, "pave-bootstrap-user" ∉ Pave.find_pave_users users) ∧
    (∀ roles : List String, "PaveBootstrapRole" ∉ Pave.find_pave_roles roles) ∧
    (∀ policies : List Pave.PolicyRef,
        (Pave.find_pave_policies policies).all
          (fun p => p.name != "PaveBootstrapPolicy") = true) := by
  refine ⟨?_, ?_, ?_⟩
  · intro users h
    rw [Pave.find_pave_users_eq_filter, List.mem_filter] at h
    simp at h
  · intro roles h
    rw [Pave.find_pave_roles_eq_filter, List.mem_filter] at h
    simp at h
  · intro policies
    rw [Pave.find_pave_policies_eq_filter, List.all_eq_true]
    intro p hp
    rw [List.mem_filter] at hp
    simp only [Bool.and_eq_true, Bool.not_eq_true'] at hp
    simp [bne, hp.2.1]

/-- C4: `find_pave_users` returns exactly the listed usernames equal to
`admin-user` or `developer-user` or containing `admin-user-` /
`developer-user-`, excluding `pave-bootstrap-user`; `other-user` is never
a candidate. -/
theorem find_pave_users_characterization :
    (∀ (users : List String) (u : String),
        u ∈ Pave.find_pave_users users ↔
          u ∈ users ∧ u ≠ "pave-bootstrap-user" ∧
            (u = "admin-user" ∨ u = "developer-user" ∨
             Pave.strContains u "admin-user-" = true ∨
             Pave.strContains u "developer-user-" = true)) ∧
    Pave.find_pave_users ["other-user"] = [] := by
  constructor
  · intro users u
    rw [Pave.find_pave_users_eq_filter, List.mem_filter]
    simp only [Bool.and_eq_true, Bool.or_eq_true, Bool.not_eq_true', beq_iff_eq,
      beq_eq_false_iff_ne, and_assoc]
    tauto
  · decide

/-- C9: bucket discovery applies no bootstrap-protection exclusion — every
listed bucket named `pave-tf-state-bucket-us-east-1` or containing
`pave-tf-state-bucket-` is a deletion candidate, including the backend
bucket that `create_s3_backend_bucket` itself creates. -/
theorem find_pave_buckets_no_exclusion :
    (∀ (buckets : List String) (b : String),
        b ∈ Pave.find_pave_buckets buckets ↔
          b ∈ buckets ∧ (b = "pave-tf-state-bucket-us-east-1" ∨
            Pave.strContains b "pave-tf-state-bucket-" = true)) ∧
    Pave.backend_bucket_name = "pave-tf-state-bucket-us-east-1" ∧
    Pave.find_pave_buckets [Pave.backend_bucket_name] = [Pave.backend_bucket_name] := by
  refine ⟨?_, rfl, by decide⟩
  intro buckets b
  rw [Pave.find_pave_buckets_eq_filter, List.mem_filter]
  by_cases hb : b = ""
  · subst hb
    have hsub : Pave.strContains "" "pave-tf-state-bucket-" = false := by decide
    simp [hsub]
  · simp [hb]

/-- C5: the bootstrap-creation workflow is idempotent — run against an
account that already has the resources (in particular, against the state
a first run leaves behind), every creation call's `EntityAlreadyExists`
is treated as success, the existing resource's ARN is looked up and
reused, no duplicate resource appears, and the end state and returned
ARNs equal those of the first run. -/
theorem bootstrap_creation_idempotent :
    ∀ s : Pave.AWSState,
      Pave.create_bootstrap_workflow (Pave.create_bootstrap_workflow s).1 =
        Pave.create_bootstrap_workflow s ∧
      (Pave.create_bootstrap_workflow s).2 =
        (some (Pave.user_arn s.accountId "bootstrap-user"),
         some (Pave.policy_arn s.accountId "PaveBootstrapPolicy"),
         some (Pave.role_arn s.accountId "PaveBootstrapRole")) := by
  intro s
  obtain ⟨acct, us, ps, rs⟩ := s
  unfold Pave.create_bootstrap_workflow Pave.create_bootstrap_user
    Pave.create_bootstrap_policy Pave.create_bootstrap_role
    Pave.iam_create_user Pave.iam_create_policy Pave.iam_create_role
  by_cases hu : "bootstrap-user" ∈ us <;>
    by_cases hp : "PaveBootstrapPolicy" ∈ ps <;>
      by_cases hr : "PaveBootstrapRole" ∈ rs <;>
        simp [hu, hp, hr]

/-- C6: the bootstrap validator's retry helper returns an immediate
success as-is; re-raises a non-retryable error at once with no sleep;
and, when every attempt fails with a transient credential error, sleeps
`initial_delay * 2 ^ attempt` before each of the bounded (default 6)
retries and raises the final attempt's error. -/
theorem retry_with_backoff_policy :
    (∀ (α : Type) (op : Nat → Except String α) (d : ℚ) (a : α),
        op 0 = .ok a → Pave.retry_with_backoff op 6 d = (.ok a, [])) ∧
    (∀ (α : Type) (op : Nat → Except String α) (d : ℚ) (e : String),
        op 0 = .error e → Pave.is_credential_error e = false →
          Pave.retry_with_backoff op 6 d = (.error e, [])) ∧
    (∀ (α : Type) (op : Nat → Except String α) (d : ℚ) (es : Nat → String),
        (∀ i, op i = .error (es i)) →
        (∀ i, Pave.is_credential_error (es i) = true) →
          Pave.retry_with_backoff op 6 d =
            (.error (es 5),
             [d * 2 ^ 0, d * 2 ^ 1, d * 2 ^ 2, d * 2 ^ 3, d * 2 ^ 4])) :=
  ⟨fun _ op d a h => Pave.retry_first_ok op d a h,
   fun _ op d e h0 h => Pave.retry_first_error_not_retryable op d e h0 h,
   fun _ op d es hop hret => Pave.retry_all_errors_retryable op d es hop hret⟩

/-- Witness for C6: an operation that keeps failing with a token error is
retried six times with delays 1, 2, 4, 8, 16 and the last error is raised. -/
theorem retry_with_backoff_policy_witness :
    Pave.retry_with_backoff
        (fun _ => (.error "ExpiredToken: security token expired" : Except String Unit)) 6 1 =
      (.error "ExpiredToken: security token expired",
       [1 * 2 ^ 0, 1 * 2 ^ 1, 1 * 2 ^ 2, 1 * 2 ^ 3, 1 * 2 ^ 4]) :=
  retry_with_backoff_policy.2.2 Unit _ 1
    (fun _ => "ExpiredToken: security token expired")
    (fun _ => rfl)
    (fun _ =>
      (by decide :
        Pave.is_credential_error "ExpiredToken: security token expired" = true))

/-- C10: the retryability test is a case-insensitive substring match over
the six keywords; any message containing one of them — e.g. a
parameter-validation error containing "Invalid" — is slept on and retried
up to the attempt bound as if transient, and a message matching none of
the substrings is raised on the first attempt with no sleep. -/
theorem retryability_substring_match :
    (∀ msg : String, Pave.is_credential_error msg = true ↔
        ∃ k ∈ Pave.RETRY_KEYWORDS, Pave.strContains (Pave.pyLower msg) k = true) ∧
    Pave.RETRY_KEYWORDS = ["invalidclienttokenid", "invalid", "token",
      "accessdenied", "unauthorized", "credentials"] ∧
    Pave.is_credential_error "Invalid length for parameter TargetKeyId" = true ∧
    (∀ (d : ℚ) (msg : String), Pave.is_credential_error msg = true →
        Pave.retry_with_backoff (fun _ => (.error msg : Except String Unit)) 6 d =
          (.error msg, [d * 2 ^ 0, d * 2 ^ 1, d * 2 ^ 2, d * 2 ^ 3, d * 2 ^ 4])) ∧
    (∀ (d : ℚ) (msg : String), Pave.is_credential_error msg = false →
        Pave.retry_with_backoff (fun _ => (.error msg : Except String Unit)) 6 d =
          (.error msg, [])) := by
  refine ⟨?_, rfl, by decide, ?_, ?_⟩
  · intro msg
    unfold Pave.is_credential_error
    rw [List.any_eq_true]
  · intro d msg h
    exact Pave.retry_all_errors_retryable _ d (fun _ => msg) (fun _ => rfl) (fun _ => h)
  · intro d msg h
    exact Pave.retry_first_error_not_retryable _ d msg rfl h

/-- Witness for C10: the parameter-validation message is retried with the
full backoff schedule even though it is not a credential problem. -/
theorem retryability_substring_match_witness :
    Pave.retry_with_backoff
        (fun _ => (.error "Invalid length for parameter TargetKeyId" : Except String Unit)) 6 1 =
      (.error "Invalid length for parameter TargetKeyId",
       [1 * 2 ^ 0, 1 * 2 ^ 1, 1 * 2 ^ 2, 1 * 2 ^ 3, 1 * 2 ^ 4]) :=
  retryability_substring_match.2.2.2.1 1
    "Invalid length for parameter TargetKeyId" (by decide)

/-- C7 (amended): the drift detector exits 0 exactly when no check reports
issues and 1 exactly when some check does; the bootstrap validator exits
0 exactly when every validation passed, else 1; the cleanup script,
however, exits 0 even when resource deletions fail — deletion errors are
only reported, and a non-zero exit arises only before the deletion phase. -/
theorem script_exit_codes :
    (∀ (du au : Option Pave.UserInfo) (dr cr : Option Pave.RoleInfo),
        (Pave.drift_main_exit du au dr cr = 0 ↔
          (Pave.run_full_drift_detection du au dr cr).2 = []) ∧
        (Pave.drift_main_exit du au dr cr = 1 ↔
          (Pave.run_full_drift_detection du au dr cr).2 ≠ [])) ∧
    (∀ results : List Bool,
        (Pave.validate_main_exit results = 0 ↔ ∀ r ∈ results, r = true) ∧
        (Pave.validate_main_exit results = 1 ↔ ¬ ∀ r ∈ results, r = true)) ∧
    (∀ (aws_users aws_roles : List String) (aws_policies : List Pave.PolicyRef)
        (aws_buckets : List String)
        (delete_user delete_role delete_policy delete_bucket :
          String → Except String Unit),
        (Pave.cleanup_main true true true aws_users aws_roles aws_policies
          aws_buckets delete_user delete_role delete_policy delete_bucket).1 = 0) := by
  refine ⟨?_, ?_, ?_⟩
  · intro du au dr cr
    unfold Pave.drift_main_exit
    by_cases h : (Pave.run_full_drift_detection du au dr cr).1 = true
    · have := (Pave.run_full_pass_iff du au dr cr).mp h
      simp [h, this]
    · have : ¬ (Pave.run_full_drift_detection du au dr cr).2 = [] := fun hc =>
        h ((Pave.run_full_pass_iff du au dr cr).mpr hc)
      simp [h, this]
  · intro results
    unfold Pave.validate_main_exit
    by_cases h : results.all id = true
    · have hb : results.all id = true := h
      rw [List.all_eq_true] at h
      simp only [id_eq] at h
      simp [hb, h]
      intro hf
      simpa using h false hf
    · have hb : results.all id = false := by simpa using h
      rw [List.all_eq_true] at h
      simp only [id_eq] at h
      simp [hb, h]
      by_contra hf
      apply h
      intro x hx
      cases x
      · exact absurd hx hf
      · rfl
  · intro aws_users aws_roles aws_policies aws_buckets du dr dp db
    unfold Pave.cleanup_main
    simp only [Bool.not_true, Bool.false_and, Bool.false_eq_true, if_false]
    split <;> rfl

/-- Counterexample to C7 as stated: a cleanup run in which the single
discovered user's deletion fails still exits 0 (the claim requires exit
status 1), with the failure only reported in the status lines. -/
theorem cleanup_exit_zero_on_failed_deletion :
    (Pave.cleanup_main true true true ["admin-user"] [] [] []
        (fun _ => .error "DeleteConflict") (fun _ => .ok ()) (fun _ => .ok ())
        (fun _ => .ok ())).1 = 0 ∧
    (Pave.cleanup_main true true true ["admin-user"] [] [] []
        (fun _ => .error "DeleteConflict") (fun _ => .ok ()) (fun _ => .ok ())
        (fun _ => .ok ())).2 =
      ["Error deleting user admin-user: DeleteConflict"] := by
  constructor <;> rfl

end Pave
